import Mathlib

/-!
Verification of the Smart-Review-Classifier core (`src/app.py`).

Python strings are modelled as `List Char` (named `PyStr`).  Python's
`str.lower()` acts per character and on ASCII letters agrees with
`Char.toLower`; the regex class `\s` is modelled by the six ASCII
whitespace characters it matches on ASCII input.  A Python expression
that may raise is modelled with `Except`/`Option`: a model's
`predict` returns `Option PyStr`, where `none` stands for "raised an
exception or produced an unparseable result".
-/

/-- Python strings, modelled as lists of characters. -/
abbrev PyStr := List Char

/-- The ASCII whitespace characters matched by the regex class `\s`
(space, tab, newline, carriage return, vertical tab, form feed),
identified by code point. -/
def isPySpace (c : Char) : Bool :=
  c.toNat == 32 || c.toNat == 9 || c.toNat == 10 || c.toNat == 13 ||
    c.toNat == 11 || c.toNat == 12

/-- Characters kept by `re.sub(r'[^a-z\s]', '', text)`: lowercase ASCII
letters (code points 97-122) and whitespace. -/
def keepChar (c : Char) : Bool :=
  (97 ≤ c.toNat && c.toNat ≤ 122) || isPySpace c

/-- `clean_text` from `app.py` lines 51-54: lowercase the text, then delete
every character outside `[a-z\s]`. -/
def clean_text (text : PyStr) : PyStr :=
  (text.map Char.toLower).filter keepChar

/-- Python dict `.get` with default, on an association list in the dict's
iteration (insertion) order. -/
def dictGet {K V : Type} [DecidableEq K] (d : List (K × V)) (k : K) (dflt : V) : V :=
  match d.find? (fun p => p.1 = k) with
  | some p => p.2
  | none => dflt

/-- Python's substring test `needle in haystack`. -/
def pyIn (needle : PyStr) : PyStr → Bool
  | [] => needle.isEmpty
  | c :: rest => needle.isPrefixOf (c :: rest) || pyIn needle rest

/-- `get_top_keywords` from `app.py` lines 56-60: lowercase the raw text,
look the lowercased label up in the keyword dict (default `[]`), and keep
the keywords occurring as substrings of the lowercased text, in order. -/
def get_top_keywords (text : PyStr) (keyword_dict : List (PyStr × List PyStr))
    (review_type : PyStr) : List PyStr :=
  let text_lower := text.map Char.toLower
  let keywords := dictGet keyword_dict (review_type.map Char.toLower) []
  keywords.filter (fun kw => pyIn kw text_lower)

/-- Result of the reverse topic lookup: a topic number, or the "N/A"
marker when no entry of the mapping carries the category label. -/
inductive TopicResult : Type
  | found (n : Int)
  | notFound
deriving DecidableEq, Repr

/-- The live topic resolution from `app.py` lines 212-217:
`topic_candidates = [k for k, v in mapping.items() if v == category]`,
then `topic_candidates[0] if topic_candidates else "N/A"`. -/
def resolve_topic (topic_mapping : List (Int × PyStr)) (category : PyStr) : TopicResult :=
  match (topic_mapping.filter (fun p => p.2 = category)).head? with
  | some p => .found p.1
  | none => .notFound

/-- Python `str.strip()`: drop leading and trailing whitespace. -/
def pyStrip (s : PyStr) : PyStr :=
  ((s.dropWhile isPySpace).reverse.dropWhile isPySpace).reverse

/-- A loaded classifier: `predict(text) -> label`.  `predict` returning
`none` models the call raising an exception (or `predict([x])[0]` failing
on an unparseable result); `some l` models `predict([x])[0] == l`. -/
structure PyModel : Type where
  predict : PyStr → Option PyStr

/-- The slice of the `load_models()` dict that the prediction block of
`main` reads: the three per-axis classifiers, each possibly absent. -/
structure Models : Type where
  sentiment : Option PyModel
  review_type : Option PyModel
  product_category : Option PyModel

/-- Per-axis outcome shown by `main`: the predicted label, or the
"Unavailable" marker when the model is absent or its `predict` failed. -/
inductive AxisResult : Type
  | label (s : PyStr)
  | unavailable
deriving DecidableEq

/-- The three classification axes (used to tag invocations in the trace). -/
inductive Axis : Type
  | sentiment
  | review_type
  | product_category
deriving DecidableEq

/-- Outcome of pressing "Analyze" in `main` (`app.py` lines 108-135):
either the "Please enter a review" warning for blank input, or a full
bundle of three axis results together with the cleaned text. -/
inductive ClassifyOutcome : Type
  | emptyInput
  | bundle (sentiment : AxisResult) (review_type : AxisResult)
      (product_category : AxisResult) (cleaned : PyStr)
deriving DecidableEq

/-- One `if models.get(axis) is not None: try: ... except: ...` block of
`main`, instrumented: returns the axis result together with the list of
arguments on which the model's `predict` was invoked. -/
def runAxisT (m : Option PyModel) (cleaned : PyStr) : AxisResult × List PyStr :=
  match m with
  | none => (.unavailable, [])
  | some mdl =>
    match mdl.predict cleaned with
    | some l => (.label l, [cleaned])
    | none => (.unavailable, [cleaned])

/-- The analysis flow of `main` (`app.py` lines 108-135), instrumented
with the trace of model invocations: `if not review.strip()` warn,
else clean the text and run the three axis blocks in order. -/
def classifyT (ms : Models) (review : PyStr) : ClassifyOutcome × List (Axis × PyStr) :=
  if pyStrip review = [] then (.emptyInput, [])
  else
    let cleaned := clean_text review
    let s := runAxisT ms.sentiment cleaned
    let r := runAxisT ms.review_type cleaned
    let c := runAxisT ms.product_category cleaned
    (.bundle s.1 r.1 c.1 cleaned,
      s.2.map (fun x => (Axis.sentiment, x)) ++
      r.2.map (fun x => (Axis.review_type, x)) ++
      c.2.map (fun x => (Axis.product_category, x)))

/-- The analysis flow of `main`, result only. -/
def classify (ms : Models) (review : PyStr) : ClassifyOutcome :=
  (classifyT ms review).1

/-- The sentiment component of an outcome bundle. -/
def ClassifyOutcome.sentimentR : ClassifyOutcome → Option AxisResult
  | .emptyInput => none
  | .bundle s _ _ _ => some s

/-- The review-type component of an outcome bundle. -/
def ClassifyOutcome.reviewTypeR : ClassifyOutcome → Option AxisResult
  | .emptyInput => none
  | .bundle _ r _ _ => some r

/-- The product-category component of an outcome bundle. -/
def ClassifyOutcome.categoryR : ClassifyOutcome → Option AxisResult
  | .emptyInput => none
  | .bundle _ _ c _ => some c

/-- What the file system / deserializer does for one artifact path:
the file is missing, `joblib.load` raises, or it yields an artifact. -/
inductive LoadResult (α : Type) : Type
  | missing
  | raises
  | ok (a : α)
deriving DecidableEq

/-- `os.path.exists(path)` under a `LoadResult` environment. -/
def pathExists {α : Type} : LoadResult α → Bool
  | .missing => false
  | .raises => true
  | .ok _ => true

/-- `joblib.load(path)` under a `LoadResult` environment: raises
(`Except.error`) or returns the deserialized artifact. -/
def joblib_load {α : Type} : LoadResult α → Except Unit α
  | .missing => .error ()
  | .raises => .error ()
  | .ok a => .ok a

/-- Python `try: body except Exception: return fallback`. -/
def pyTry {α : Type} (body : Except Unit α) (fallback : α) : α :=
  match body with
  | .ok a => a
  | .error _ => fallback

/-- `try_load` from `app.py` lines 31-37: inside a `try`, if the path
exists return `joblib.load(path)`, catching any exception; otherwise
(or on exception, or when the load returns) fall through to `None`. -/
def try_load {α : Type} (fs : String → LoadResult α) (path : String) : Option α :=
  pyTry (if pathExists (fs path) then (joblib_load (fs path)).map some else .ok none) none

/-- The dict built by `load_models` (`app.py` lines 39-47): one optional
artifact per key. -/
structure ModelsSnapshot (α : Type) : Type where
  sentiment : Option α
  review_type : Option α
  product_category : Option α
  topic_mapping : Option α
  review_keywords : Option α
  vectorizer : Option α

/-- `load_models` from `app.py` lines 28-49: `try_load` each artifact at
its fixed path. -/
def load_models {α : Type} (fs : String → LoadResult α) : ModelsSnapshot α :=
  { sentiment := try_load fs "models/sentiment_model.pkl"
    review_type := try_load fs "models/reviewtype_model.pkl"
    product_category := try_load fs "models/department_model.pkl"
    topic_mapping := try_load fs "models/topic_category_mapping.pkl"
    review_keywords := try_load fs "models/reviewtype_keywords.pkl"
    vectorizer := try_load fs "models/vectorizer.pkl" }

/-! ### Helper lemmas about characters and `clean_text` -/

theorem toNat_ofNat_of_lt {n : Nat} (h : n < 55296) : (Char.ofNat n).toNat = n := by
  rw [Char.ofNat, dif_pos (Or.inl h)]
  rfl

theorem toNat_toLower (c : Char) :
    (Char.toLower c).toNat = if 65 ≤ c.toNat ∧ c.toNat ≤ 90 then c.toNat + 32 else c.toNat := by
  rw [Char.toLower]
  by_cases h : 65 ≤ c.toNat ∧ c.toNat ≤ 90
  · have h1 : c.toNat ≥ 65 ∧ c.toNat ≤ 90 := h
    rw [if_pos h1, if_pos h, toNat_ofNat_of_lt (by omega)]
  · have h1 : ¬(c.toNat ≥ 65 ∧ c.toNat ≤ 90) := h
    rw [if_neg h1, if_neg h]

theorem toLower_eq_self_of_not_upper {c : Char}
    (h : ¬(65 ≤ c.toNat ∧ c.toNat ≤ 90)) : Char.toLower c = c := by
  rw [Char.toLower, if_neg]
  exact fun hc => h hc

theorem isPySpace_iff {c : Char} :
    isPySpace c = true ↔
      (c.toNat = 32 ∨ c.toNat = 9 ∨ c.toNat = 10 ∨ c.toNat = 13 ∨
       c.toNat = 11 ∨ c.toNat = 12) := by
  simp [isPySpace, Bool.or_eq_true, or_assoc]

theorem keepChar_iff {c : Char} :
    keepChar c = true ↔ ((97 ≤ c.toNat ∧ c.toNat ≤ 122) ∨ isPySpace c = true) := by
  simp [keepChar, Bool.or_eq_true]

theorem toLower_eq_self_of_keep {c : Char} (h : keepChar c = true) :
    Char.toLower c = c := by
  rcases keepChar_iff.mp h with hl | hs
  · exact toLower_eq_self_of_not_upper (by omega)
  · exact toLower_eq_self_of_not_upper (by rcases isPySpace_iff.mp hs with h | h | h | h | h | h <;> omega)

theorem isPySpace_toLower (c : Char) : isPySpace (Char.toLower c) = isPySpace c := by
  have ht := toNat_toLower c
  by_cases h : 65 ≤ c.toNat ∧ c.toNat ≤ 90
  · rw [if_pos h] at ht
    have h1 : isPySpace (Char.toLower c) = false := by
      rw [isPySpace, ht]
      simp only [Bool.or_eq_false_iff, beq_eq_false_iff_ne]
      omega
    have h2 : isPySpace c = false := by
      rw [isPySpace]
      simp only [Bool.or_eq_false_iff, beq_eq_false_iff_ne]
      omega
    rw [h1, h2]
  · rw [toLower_eq_self_of_not_upper h]

theorem keepChar_of_mem_clean {x : PyStr} {d : Char} (h : d ∈ clean_text x) :
    keepChar d = true :=
  (List.mem_filter.mp h).2

theorem clean_text_cons (c : Char) (t : PyStr) :
    clean_text (c :: t) =
      if keepChar (Char.toLower c) then Char.toLower c :: clean_text t else clean_text t := by
  simp [clean_text, List.filter_cons]

theorem isPySpace_filter_clean (x : PyStr) :
    (clean_text x).filter isPySpace = x.filter isPySpace := by
  induction x with
  | nil => rfl
  | cons c t ih =>
    rw [clean_text_cons]
    by_cases hs : isPySpace c = true
    · have hlow : Char.toLower c = c :=
        toLower_eq_self_of_not_upper
          (by rcases isPySpace_iff.mp hs with h | h | h | h | h | h <;> omega)
      have hk : keepChar c = true := keepChar_iff.mpr (Or.inr hs)
      rw [hlow, if_pos hk, List.filter_cons_of_pos hs, List.filter_cons_of_pos hs, ih]
    · have hsl : ¬(isPySpace (Char.toLower c) = true) := by
        rw [isPySpace_toLower]
        exact hs
      by_cases hk : keepChar (Char.toLower c) = true
      · rw [if_pos hk, List.filter_cons_of_neg hsl, List.filter_cons_of_neg hs, ih]
      · rw [if_neg hk, List.filter_cons_of_neg hs, ih]

/-- C7: `clean_text` is a total function whose output contains only
lowercase ASCII letters and whitespace (all digits, punctuation and
symbols removed), and whose whitespace content is preserved exactly
(runs are not collapsed: the whitespace characters of the output are
precisely those of the input, in order). -/
theorem clean_text_total_filter (x : PyStr) :
    (∀ c ∈ clean_text x, (97 ≤ c.toNat ∧ c.toNat ≤ 122) ∨ isPySpace c = true) ∧
    (clean_text x).filter isPySpace = x.filter isPySpace :=
  ⟨fun _ hc => keepChar_iff.mp (keepChar_of_mem_clean hc), isPySpace_filter_clean x⟩

/-- C8: `clean_text` is idempotent — normalizing already-cleaned text is
a no-op. -/
theorem clean_text_idem (x : PyStr) : clean_text (clean_text x) = clean_text x := by
  show (List.map Char.toLower (clean_text x)).filter keepChar = clean_text x
  rw [List.map_congr_left (fun a ha => toLower_eq_self_of_keep (keepChar_of_mem_clean ha)),
    List.map_id']
  exact List.filter_eq_self.mpr (fun a ha => keepChar_of_mem_clean ha)

theorem pyIn_iff (n : PyStr) : ∀ h : PyStr, pyIn n h = true ↔ List.IsInfix n h := by
  intro h
  induction h with
  | nil =>
    simp [pyIn, List.isEmpty_iff, List.infix_nil]
  | cons c t ih =>
    simp [pyIn, Bool.or_eq_true, List.isPrefixOf_iff_prefix, ih, List.infix_cons_iff]

/-- C6: every keyword returned by `get_top_keywords` is a substring of the
lowercased original text and a member of the keyword table's list for the
lowercased label; the returned keywords are a sublist of that list (hence
preserve its original order); and when the lowercased label is absent from
the table the result is the empty list, not an error. -/
theorem get_top_keywords_spec (text : PyStr) (table : List (PyStr × List PyStr))
    (label : PyStr) :
    (∀ kw ∈ get_top_keywords text table label,
      List.IsInfix kw (text.map Char.toLower) ∧
      kw ∈ dictGet table (label.map Char.toLower) []) ∧
    List.Sublist (get_top_keywords text table label)
      (dictGet table (label.map Char.toLower) []) ∧
    (table.find? (fun p => p.1 = label.map Char.toLower) = none →
      get_top_keywords text table label = []) := by
  refine ⟨fun kw hkw => ?_, ?_, fun hnone => ?_⟩
  · have h := List.mem_filter.mp hkw
    exact ⟨(pyIn_iff kw (text.map Char.toLower)).mp h.2, h.1⟩
  · exact List.filter_sublist _
  · show List.filter _ (dictGet table (label.map Char.toLower) []) = []
    rw [dictGet, hnone]
    rfl

/-- C6 witness: with an empty keyword table the lookup misses and the
result is empty; the hypotheses of `get_top_keywords_spec` are discharged
at a concrete input. -/
theorem get_top_keywords_spec_witness :
    get_top_keywords ("great dress".toList) [] ("Complaint".toList) = [] :=
  (get_top_keywords_spec ("great dress".toList) [] ("Complaint".toList)).2.2 (by decide)

/-- C3: `resolve_topic` returns the first topic identifier in the
mapping's iteration order whose value equals the label (any earlier
entries carry a different label), returns the `notFound` marker — rather
than raising — exactly when no entry's value equals the label, and on
`{3: "Tops", 7: "Dresses", 9: "Tops"}` resolves `"Tops"` to `3` and
`"Shoes"` to `notFound`. -/
theorem resolve_topic_spec :
    (∀ (m : List (Int × PyStr)) (label : PyStr) (pre post : List (Int × PyStr)) (k : Int),
      m = pre ++ (k, label) :: post → (∀ p ∈ pre, p.2 ≠ label) →
      resolve_topic m label = .found k) ∧
    (∀ (m : List (Int × PyStr)) (label : PyStr),
      resolve_topic m label = .notFound ↔ ∀ p ∈ m, p.2 ≠ label) ∧
    resolve_topic [(3, "Tops".toList), (7, "Dresses".toList), (9, "Tops".toList)]
      ("Tops".toList) = .found 3 ∧
    resolve_topic [(3, "Tops".toList), (7, "Dresses".toList), (9, "Tops".toList)]
      ("Shoes".toList) = .notFound := by
  refine ⟨?_, ?_, by decide, by decide⟩
  · intro m label pre post k hm hpre
    have hfil : m.filter (fun p => p.2 = label) =
        (k, label) :: post.filter (fun p => p.2 = label) := by
      rw [hm, List.filter_append]
      have h1 : pre.filter (fun p => p.2 = label) = [] :=
        List.filter_eq_nil_iff.mpr (by
          intro p hp
          simp only [decide_eq_true_eq]
          exact hpre p hp)
      rw [h1, List.filter_cons_of_pos (by simp)]
      rfl
    rw [resolve_topic, hfil]
    rfl
  · intro m label
    constructor
    · intro hres p hp hlab
      have hmem : p ∈ m.filter (fun q => q.2 = label) :=
        List.mem_filter.mpr ⟨hp, by simp [hlab]⟩
      rw [resolve_topic] at hres
      rcases hhead : (m.filter (fun q => q.2 = label)).head? with _ | q
      · rw [List.head?_eq_none_iff] at hhead
        rw [hhead] at hmem
        exact absurd hmem (List.not_mem_nil p)
      · rw [hhead] at hres
        exact absurd hres (by simp)
    · intro hall
      have h1 : m.filter (fun q => q.2 = label) = [] :=
        List.filter_eq_nil_iff.mpr (by
          intro p hp
          simp only [decide_eq_true_eq]
          exact hall p hp)
      rw [resolve_topic, h1]
      rfl

/-- C3 witness: the first-match branch of `resolve_topic_spec` applied at
a concrete mapping with hypotheses discharged by evaluation. -/
theorem resolve_topic_spec_witness :
    resolve_topic [(3, "Tops".toList), (7, "Dresses".toList), (9, "Tops".toList)]
      ("Dresses".toList) = .found 7 :=
  resolve_topic_spec.1
    [(3, "Tops".toList), (7, "Dresses".toList), (9, "Tops".toList)]
    ("Dresses".toList) [(3, "Tops".toList)] [(9, "Tops".toList)] 7
    (by decide) (by decide)

/-- C4: the loader never raises — for every file-system behaviour and
every path, a missing file or a deserializer exception makes `try_load`
return `none` (the axis is absent), a successful deserialization is
returned as-is, and `load_models` always returns the well-formed snapshot
whose every axis is the `try_load` of its fixed path.  The exception of
`joblib_load` is caught by `pyTry` inside `try_load`, so no `Except.error`
appears in the loader's result type. -/
theorem load_models_never_raises {α : Type} (fs : String → LoadResult α) :
    (∀ path, fs path = .missing → try_load fs path = none) ∧
    (∀ path, fs path = .raises → try_load fs path = none) ∧
    (∀ path a, fs path = .ok a → try_load fs path = some a) ∧
    load_models fs =
      { sentiment := try_load fs "models/sentiment_model.pkl"
        review_type := try_load fs "models/reviewtype_model.pkl"
        product_category := try_load fs "models/department_model.pkl"
        topic_mapping := try_load fs "models/topic_category_mapping.pkl"
        review_keywords := try_load fs "models/reviewtype_keywords.pkl"
        vectorizer := try_load fs "models/vectorizer.pkl" } := by
  refine ⟨fun path h => ?_, fun path h => ?_, fun path a h => ?_, rfl⟩
  · rw [try_load, h]
    rfl
  · rw [try_load, h]
    rfl
  · rw [try_load, h]
    rfl

/-- C4 witness: a file system where the sentiment artifact deserializes
with an exception and every other artifact is missing; `try_load` maps
both situations to `none`, and a successful artifact is passed through. -/
theorem load_models_never_raises_witness :
    try_load (fun p : String =>
        if p = "models/sentiment_model.pkl" then LoadResult.raises else LoadResult.missing)
      "models/sentiment_model.pkl" = (none : Option Nat) ∧
    try_load (fun p : String =>
        if p = "models/sentiment_model.pkl" then LoadResult.raises else LoadResult.missing)
      "models/vectorizer.pkl" = (none : Option Nat) ∧
    try_load (fun _ : String => LoadResult.ok 42) "models/vectorizer.pkl" = some 42 :=
  ⟨(load_models_never_raises _).2.1 _ (by decide),
   (load_models_never_raises _).1 _ (by decide),
   (load_models_never_raises _).2.2.1 _ 42 rfl⟩

theorem classifyT_of_not_blank (ms : Models) (review : PyStr) (h : pyStrip review ≠ []) :
    classifyT ms review =
      (.bundle (runAxisT ms.sentiment (clean_text review)).1
        (runAxisT ms.review_type (clean_text review)).1
        (runAxisT ms.product_category (clean_text review)).1
        (clean_text review),
       (runAxisT ms.sentiment (clean_text review)).2.map (fun x => (Axis.sentiment, x)) ++
       (runAxisT ms.review_type (clean_text review)).2.map (fun x => (Axis.review_type, x)) ++
       (runAxisT ms.product_category (clean_text review)).2.map
         (fun x => (Axis.product_category, x))) := by
  rw [classifyT, if_neg h]

/-- C1: axis isolation — for every review accepted by the guard and every
configuration of the three primary models (any subset absent, any subset
failing), the result of each axis is exactly what that axis's own model
produces on the cleaned text, and replacing the other two axes' models in
any way (absent, failing, or different) leaves that axis's result
unchanged. -/
theorem axis_isolation (ms ms' : Models) (review : PyStr) (h : pyStrip review ≠ []) :
    (classify ms review = .bundle
      (runAxisT ms.sentiment (clean_text review)).1
      (runAxisT ms.review_type (clean_text review)).1
      (runAxisT ms.product_category (clean_text review)).1
      (clean_text review)) ∧
    (ms'.sentiment = ms.sentiment →
      (classify ms' review).sentimentR = (classify ms review).sentimentR) ∧
    (ms'.review_type = ms.review_type →
      (classify ms' review).reviewTypeR = (classify ms review).reviewTypeR) ∧
    (ms'.product_category = ms.product_category →
      (classify ms' review).categoryR = (classify ms review).categoryR) := by
  have hms := classifyT_of_not_blank ms review h
  have hms' := classifyT_of_not_blank ms' review h
  refine ⟨?_, fun he => ?_, fun he => ?_, fun he => ?_⟩
  · simp [classify, hms]
  · simp [classify, hms, hms', he, ClassifyOutcome.sentimentR]
  · simp [classify, hms, hms', he, ClassifyOutcome.reviewTypeR]
  · simp [classify, hms, hms', he, ClassifyOutcome.categoryR]

/-- C1 witness: a configuration where only the sentiment model is present
(and succeeds); removing or breaking the other axes' models leaves the
sentiment result `label "pos"`, as `axis_isolation` states at this input. -/
theorem axis_isolation_witness :
    classify
      { sentiment := some { predict := fun _ => some ("pos".toList) },
        review_type := none,
        product_category := some { predict := fun _ => none } }
      ("Great dress".toList) =
      .bundle (.label ("pos".toList)) .unavailable .unavailable
        (clean_text ("Great dress".toList)) :=
  (axis_isolation
    { sentiment := some { predict := fun _ => some ("pos".toList) },
      review_type := none,
      product_category := some { predict := fun _ => none } }
    { sentiment := none, review_type := none, product_category := none }
    ("Great dress".toList) (by decide)).1

/-- C2: empty-input short-circuit — for every configuration of models and
every review that is empty or whitespace-only, the outcome is the
distinct `emptyInput` signal (not a bundle of `unavailable` results) and
the invocation trace is empty: no model's `predict` is called. -/
theorem empty_input_short_circuit (ms : Models) (review : PyStr)
    (h : pyStrip review = []) :
    classifyT ms review = (.emptyInput, []) ∧
    classify ms review ≠ .bundle .unavailable .unavailable .unavailable
      (clean_text review) := by
  constructor
  · rw [classifyT, if_pos h]
  · rw [classify, classifyT, if_pos h]
    simp

/-- C2 witness: the short-circuit fires on `""` and on `"   "` even with
all three models present and eager to answer. -/
theorem empty_input_short_circuit_witness :
    classifyT
      { sentiment := some { predict := fun _ => some ("pos".toList) },
        review_type := some { predict := fun _ => some ("t".toList) },
        product_category := some { predict := fun _ => some ("c".toList) } }
      [] = (.emptyInput, []) ∧
    classifyT
      { sentiment := some { predict := fun _ => some ("pos".toList) },
        review_type := some { predict := fun _ => some ("t".toList) },
        product_category := some { predict := fun _ => some ("c".toList) } }
      ("   ".toList) = (.emptyInput, []) :=
  ⟨(empty_input_short_circuit _ [] (by decide)).1,
   (empty_input_short_circuit _ ("   ".toList) (by decide)).1⟩

/-- C5: prediction-failure containment — for every non-blank review, if a
present model's `predict` fails (raises or yields an unparseable result,
modelled by `predict = none`), that axis's result is `unavailable`, and
classification still returns a complete bundle: the exception is consumed
inside the per-axis `try`/`except` and never reaches the result type. -/
theorem prediction_failure_contained (ms : Models) (review : PyStr)
    (h : pyStrip review ≠ []) :
    (∀ mdl, ms.sentiment = some mdl → mdl.predict (clean_text review) = none →
      (classify ms review).sentimentR = some .unavailable) ∧
    (∀ mdl, ms.review_type = some mdl → mdl.predict (clean_text review) = none →
      (classify ms review).reviewTypeR = some .unavailable) ∧
    (∀ mdl, ms.product_category = some mdl → mdl.predict (clean_text review) = none →
      (classify ms review).categoryR = some .unavailable) ∧
    (∃ s r c, classify ms review = .bundle s r c (clean_text review)) := by
  have hms := classifyT_of_not_blank ms review h
  refine ⟨fun mdl hm hp => ?_, fun mdl hm hp => ?_, fun mdl hm hp => ?_, ?_⟩
  · simp [classify, hms, runAxisT, hm, hp, ClassifyOutcome.sentimentR]
  · simp [classify, hms, runAxisT, hm, hp, ClassifyOutcome.reviewTypeR]
  · simp [classify, hms, runAxisT, hm, hp, ClassifyOutcome.categoryR]
  · exact ⟨(runAxisT ms.sentiment (clean_text review)).1,
      (runAxisT ms.review_type (clean_text review)).1,
      (runAxisT ms.product_category (clean_text review)).1,
      by rw [classify, hms]⟩

/-- C5 witness: all three models present and all three `predict`s failing
on a concrete non-blank review; every axis is `unavailable` and the bundle
is still complete. -/
theorem prediction_failure_contained_witness :
    (classify
      { sentiment := some { predict := fun _ => none },
        review_type := some { predict := fun _ => none },
        product_category := some { predict := fun _ => none } }
      ("Great dress".toList)).sentimentR = some .unavailable ∧
    (classify
      { sentiment := some { predict := fun _ => none },
        review_type := some { predict := fun _ => none },
        product_category := some { predict := fun _ => none } }
      ("Great dress".toList)).reviewTypeR = some .unavailable ∧
    (classify
      { sentiment := some { predict := fun _ => none },
        review_type := some { predict := fun _ => none },
        product_category := some { predict := fun _ => none } }
      ("Great dress".toList)).categoryR = some .unavailable :=
  ⟨(prediction_failure_contained _ _ (by decide)).1 _ rfl rfl,
   (prediction_failure_contained _ _ (by decide)).2.1 _ rfl rfl,
   (prediction_failure_contained _ _ (by decide)).2.2.1 _ rfl rfl⟩

/-- C9: end-to-end scenario — cleaning
`"This dress was AMAZING!! 10/10 would buy again."` yields exactly
`"this dress was amazing  would buy again"` (digits and punctuation
stripped, whitespace preserved, including the double space left where
`"!! 10/10 "` was removed), and if the sentiment model returns
`"Positive"` on that cleaned text then the sentiment axis result is
`label "Positive"`. -/
theorem end_to_end_scenario (ms : Models) (mdl : PyModel)
    (hm : ms.sentiment = some mdl)
    (hp : mdl.predict (clean_text ("This dress was AMAZING!! 10/10 would buy again.".toList)) =
      some ("Positive".toList)) :
    clean_text ("This dress was AMAZING!! 10/10 would buy again.".toList) =
      "this dress was amazing  would buy again".toList ∧
    (classify ms ("This dress was AMAZING!! 10/10 would buy again.".toList)).sentimentR =
      some (.label ("Positive".toList)) := by
  refine ⟨by decide, ?_⟩
  have hms := classifyT_of_not_blank ms
    ("This dress was AMAZING!! 10/10 would buy again.".toList) (by decide)
  rw [classify, hms]
  simp only [ClassifyOutcome.sentimentR, runAxisT, hm]
  rw [hp]

/-- C9 witness: a concrete sentiment model that answers `"Positive"`,
with the other axes absent. -/
theorem end_to_end_scenario_witness :
    (classify
      { sentiment := some { predict := fun _ => some ("Positive".toList) },
        review_type := none, product_category := none }
      ("This dress was AMAZING!! 10/10 would buy again.".toList)).sentimentR =
      some (.label ("Positive".toList)) :=
  (end_to_end_scenario
    { sentiment := some { predict := fun _ => some ("Positive".toList) },
      review_type := none, product_category := none }
    { predict := fun _ => some ("Positive".toList) } rfl rfl).2

/-- C10: the empty-input guard inspects only the raw review — for every
review containing a non-whitespace character but no ASCII letters (upper
or lower), the short-circuit is not taken, the cleaned text is
whitespace-only (possibly empty), and each present model's `predict` is
invoked on that cleaned text (it appears in the invocation trace). -/
theorem raw_guard_ignores_cleaned (ms : Models) (review : PyStr)
    (h1 : pyStrip review ≠ [])
    (h2 : ∀ c ∈ review, ¬(65 ≤ c.toNat ∧ c.toNat ≤ 90) ∧ ¬(97 ≤ c.toNat ∧ c.toNat ≤ 122)) :
    (classifyT ms review).1 ≠ .emptyInput ∧
    (clean_text review).all isPySpace = true ∧
    (∀ mdl, ms.sentiment = some mdl →
      (Axis.sentiment, clean_text review) ∈ (classifyT ms review).2) ∧
    (∀ mdl, ms.review_type = some mdl →
      (Axis.review_type, clean_text review) ∈ (classifyT ms review).2) ∧
    (∀ mdl, ms.product_category = some mdl →
      (Axis.product_category, clean_text review) ∈ (classifyT ms review).2) := by
  have hms := classifyT_of_not_blank ms review h1
  refine ⟨?_, ?_, fun mdl hm => ?_, fun mdl hm => ?_, fun mdl hm => ?_⟩
  · rw [hms]
    simp
  · rw [List.all_eq_true]
    intro d hd
    have hk := keepChar_of_mem_clean hd
    obtain ⟨c, hc, hcd⟩ := List.mem_map.mp (List.mem_filter.mp hd).1
    have h2c := h2 c hc
    have hcc : Char.toLower c = c := toLower_eq_self_of_not_upper h2c.1
    rw [hcc] at hcd
    subst hcd
    rcases keepChar_iff.mp hk with hl | hs
    · exact absurd hl h2c.2
    · exact hs
  · rw [hms]
    rcases hp : mdl.predict (clean_text review) with _ | l <;>
      simp [runAxisT, hm, hp]
  · rw [hms]
    rcases hp : mdl.predict (clean_text review) with _ | l <;>
      simp [runAxisT, hm, hp]
  · rw [hms]
    rcases hp : mdl.predict (clean_text review) with _ | l <;>
      simp [runAxisT, hm, hp]

/-- C10 witness: the review `"123!!!"` has no letters but is not blank;
with all three models present the guard is passed, the cleaned text is
empty, and all three models are invoked on it. -/
theorem raw_guard_ignores_cleaned_witness :
    clean_text ("123!!!".toList) = [] ∧
    (Axis.sentiment, clean_text ("123!!!".toList)) ∈
      (classifyT
        { sentiment := some { predict := fun _ => some ("pos".toList) },
          review_type := some { predict := fun _ => none },
          product_category := some { predict := fun _ => some ("c".toList) } }
        ("123!!!".toList)).2 ∧
    (Axis.review_type, clean_text ("123!!!".toList)) ∈
      (classifyT
        { sentiment := some { predict := fun _ => some ("pos".toList) },
          review_type := some { predict := fun _ => none },
          product_category := some { predict := fun _ => some ("c".toList) } }
        ("123!!!".toList)).2 ∧
    (Axis.product_category, clean_text ("123!!!".toList)) ∈
      (classifyT
        { sentiment := some { predict := fun _ => some ("pos".toList) },
          review_type := some { predict := fun _ => none },
          product_category := some { predict := fun _ => some ("c".toList) } }
        ("123!!!".toList)).2 :=
  ⟨by decide,
   (raw_guard_ignores_cleaned _ ("123!!!".toList) (by decide) (by decide)).2.2.1 _ rfl,
   (raw_guard_ignores_cleaned _ ("123!!!".toList) (by decide) (by decide)).2.2.2.1 _ rfl,
   (raw_guard_ignores_cleaned _ ("123!!!".toList) (by decide) (by decide)).2.2.2.2 _ rfl⟩
